import Mathlib

/-!
# Verification of the MMTQueue ephemeris module

A shallow embedding of the two Python source files of the repository:

* `src/MMTEphem.py` (the minimal top-level module) — embedded in the root
  namespace below (`mmtObserver`, `mmtTwilightDefinition`, `MMTEphem`).
* `src/original_version/MMTEphem.py` — embedded in the `Orig` namespace
  (`Orig.targetObservability`, `Orig.mmtObserver`, `Orig.mmtAltAz`,
  `Orig.mmtParAngle`, `Orig.alt2airmass`, `Orig.parAngleCurve`,
  `Orig.airmassCurve`, `Orig.ephem`, `Orig.ObjEphem`).

The external pyephem library is modelled as an abstract `Provider`
structure: its rise/set searches and star computations are uninterpreted
functions of the observer configuration that is passed to them.  A pyephem
`Observer` is modelled as an explicit record; the Python code's in-place
mutation of the shared observer is modelled by explicit state passing.
Instants returned by the provider and grid times are rationals, measured in
minutes (so the 5-minute grid step is the literal `5` and 24 hours is
`1440`).  pyephem's `next_setting`/`next_rising` do not modify the
observer's `date` attribute, so the provider functions are pure.
Floating-point values produced by star computations are modelled as real
numbers.
-/

/-- A pyephem date value: the code stores either a date string
(`"YYYY/MM/DD 19:00"`) or a numeric instant (grid times) in the observer's
`date` attribute. -/
inductive EDate where
  | str : String → EDate
  | time : ℚ → EDate

/-- The mutable pyephem `Observer` record: the fields set by `mmtObserver`
plus the `date` attribute (`none` models the pyephem default "now", i.e.
no date was ever assigned). -/
structure Observer where
  pressure : ℚ
  horizon : String
  lat : String
  lon : String
  elevation : ℚ
  date : Option EDate

/-- The two bodies queried for rise/set events. -/
inductive Body where
  | Sun : Body
  | Moon : Body

/-- Abstract model of the pyephem library: `next_setting`/`next_rising`
searches (pure functions of the observer configuration and the body) and
the attributes of a J2000 `FixedBody(_ra, _dec)` after `compute(observer)`
(`alt`, `az` in radians, and the `parallactic_angle()` method). -/
structure Provider where
  next_setting : Observer → Body → ℚ
  next_rising : Observer → Body → ℚ
  alt : Observer → String → String → ℝ
  az : Observer → String → String → ℝ
  parallactic_angle : Observer → String → String → ℝ

/-! ## The minimal top-level module `src/MMTEphem.py` -/

/-- `mmtObserver(dateObs)` of `src/MMTEphem.py`: builds the observer with
pressure 0, horizon `"-0:34"`, the MMT site coordinates and elevation.
Note that the `dateObs` argument is accepted but never used, and the
observer's `date` attribute is never assigned (it stays at the pyephem
default, modelled as `none`). -/
def mmtObserver (dateObs : String) : Observer :=
  { pressure := 0
    horizon := "-0:34"
    lat := "31:41:19.6"
    lon := "-110:53:04.4"
    elevation := 2600
    date := none }

/-- `mmtTwilightDefinition()` of `src/MMTEphem.py`: nautical twilight,
`"-12"` degrees. -/
def mmtTwilightDefinition : String := "-12"

/-- The `MMTEphem` class of `src/MMTEphem.py`. -/
structure MMTEphem where
  dateObs : String
  sunset : ℚ
  sunrise : ℚ
  eveningTwilight : ℚ
  morningTwilight : ℚ
  moonrise : ℚ
  moonset : ℚ
  mmtObserver : Observer

/-- `MMTEphem.__init__` of `src/MMTEphem.py`, line by line:
append `" 19:00"` to the stored date, build the observer (whose `date` is
never set), set horizon `"-0:34"`, query sunset/sunrise, set the twilight
horizon, query the twilights, then query moonrise/moonset with the horizon
still at the twilight value, and save the observer. -/
def MMTEphemInit (P : Provider) (dateObs : String) : MMTEphem :=
  let mmt0 := mmtObserver dateObs
  let mmtStd : Observer := { mmt0 with horizon := "-0:34" }
  let mmtTwi : Observer := { mmtStd with horizon := mmtTwilightDefinition }
  { dateObs := dateObs ++ " 19:00"
    sunset := P.next_setting mmtStd Body.Sun
    sunrise := P.next_rising mmtStd Body.Sun
    eveningTwilight := P.next_setting mmtTwi Body.Sun
    morningTwilight := P.next_rising mmtTwi Body.Sun
    moonrise := P.next_rising mmtTwi Body.Moon
    moonset := P.next_setting mmtTwi Body.Moon
    mmtObserver := mmtTwi }

/-! ## The original module `src/original_version/MMTEphem.py` -/

namespace Orig

/-- `targetObservability(time, airmass)`: 1 if `airmass > 1.0 and
airmass < airmassCutoff` with `airmassCutoff = 1.8`, else 0.  The `time`
argument is unused by the body. -/
noncomputable def targetObservability (time : ℚ) (airmass : ℝ) : ℕ :=
  let airmassCutoff : ℝ := 1.8
  if airmass > 1.0 ∧ airmass < airmassCutoff then 1 else 0

/-- `mmtObserver()` of the original module (no argument). -/
def mmtObserver : Observer :=
  { pressure := 0
    horizon := "-0:34"
    lat := "31:41:19.6"
    lon := "-110:53:04.4"
    elevation := 2600
    date := none }

/-- `mmtTwilightDefinition()` of the original module. -/
def mmtTwilightDefinition : String := "-12"

/-- `alt2airmass(alt)`: `zenithAngle = 90.0 - alt`,
`za_radians = zenithAngle/180.0*math.pi`, `airmass = 1.0/math.cos(za_radians)`. -/
noncomputable def alt2airmass (alt : ℝ) : ℝ :=
  let zenithAngle := 90.0 - alt
  let za_radians := zenithAngle / 180.0 * Real.pi
  1.0 / Real.cos za_radians

/-- The `ephem` class of the original module. -/
structure ephem where
  dateObs : String
  sunset : ℚ
  sunrise : ℚ
  eveningTwilight : ℚ
  morningTwilight : ℚ
  moonrise : ℚ
  moonset : ℚ
  mmtObserver : Observer

/-- The date anchor computed by `ephem.__init__` for a string input:
`dateObs.split()[0] + " 19:00"` (comments in the source explain this makes
the date reference noon MST, 19:00 being UTC). -/
def anchor (dateObs : String) : String :=
  (dateObs.splitOn " ").headD dateObs ++ " 19:00"

/-- The observer state in effect for the standard-horizon queries of
`ephem.__init__`: site observer, date set to the anchor, horizon `"-0:34"`. -/
def obsStd (dateObs : String) : Observer :=
  { mmtObserver with date := some (EDate.str (anchor dateObs)), horizon := "-0:34" }

/-- The observer state in effect for the twilight queries of
`ephem.__init__`: as `obsStd` but horizon `mmtTwilightDefinition`. -/
def obsTwi (dateObs : String) : Observer :=
  { obsStd dateObs with horizon := mmtTwilightDefinition }

/-- `ephem.__init__` of the original module, line by line (string-date
branch): rewrite `dateObs` to `split()[0] + " 19:00"`, build the observer,
set its `date` to the anchor, set horizon `"-0:34"`, query sunset/sunrise
of the Sun, switch the horizon to the twilight definition, query the two
twilights, switch the horizon back to `"-0:34"`, query moonrise/moonset of
the Moon, and save the observer.  (`.datetime()` is the identity in this
model.) -/
def ephemInit (P : Provider) (dateObs : String) : ephem :=
  let d := (dateObs.splitOn " ").headD dateObs ++ " 19:00"
  let mmt0 := mmtObserver
  let mmt1 : Observer := { mmt0 with date := some (EDate.str d) }
  let mmtStd : Observer := { mmt1 with horizon := "-0:34" }
  let mmtTwi : Observer := { mmtStd with horizon := mmtTwilightDefinition }
  let mmtStd2 : Observer := { mmtTwi with horizon := "-0:34" }
  { dateObs := d
    sunset := P.next_setting mmtStd Body.Sun
    sunrise := P.next_rising mmtStd Body.Sun
    eveningTwilight := P.next_setting mmtTwi Body.Sun
    morningTwilight := P.next_rising mmtTwi Body.Sun
    moonrise := P.next_rising mmtStd2 Body.Moon
    moonset := P.next_setting mmtStd2 Body.Moon
    mmtObserver := mmtStd2 }

/-- `mmtAltAz(mmt, ra, dec, dateTime)`: build a J2000 `FixedBody` from
`ra`/`dec`, assign `mmt.mmtObserver.date = dateTime` (the only mutation),
compute against the updated observer, and return
`(star.alt*180.0/math.pi, star.az*180/math.pi)`.  The updated `ephem`
object is returned as the second component to model the in-place mutation. -/
noncomputable def mmtAltAz (P : Provider) (mmt : ephem) (ra dec : String)
    (dateTime : EDate) : (ℝ × ℝ) × ephem :=
  let obs : Observer := { mmt.mmtObserver with date := some dateTime }
  ((P.alt obs ra dec * 180.0 / Real.pi, P.az obs ra dec * 180 / Real.pi),
    { mmt with mmtObserver := obs })

/-- `mmtParAngle(mmt, ra, dec, dateTime)`: same observer mutation as
`mmtAltAz`, but returns `star.parallactic_angle()` with no unit
conversion. -/
noncomputable def mmtParAngle (P : Provider) (mmt : ephem) (ra dec : String)
    (dateTime : EDate) : ℝ × ephem :=
  let obs : Observer := { mmt.mmtObserver with date := some dateTime }
  (P.parallactic_angle obs ra dec, { mmt with mmtObserver := obs })

/-- The body of the time-grid `while` loop shared by `parAngleCurve` and
`airmassCurve`, with an explicit iteration bound: `timeArrayGo n endTime t`
produces the samples `t, t+5, t+10, ...` stopping at the first sample
`≥ endTime` (or when the bound `n` runs out).  `timeArray` below always
supplies the exact number of loop iterations, so the bound is never the
reason the loop stops. -/
def timeArrayGo : ℕ → ℚ → ℚ → List ℚ
  | 0, _, t => [t]
  | n + 1, endTime, t => if t < endTime then t :: timeArrayGo n endTime (t + 5) else [t]

/-- The time grid built by `timeArray = [startTime]; while timeArray[-1] <
endTime: timeArray.append(timeArray[-1] + timedelta)` with
`timedelta = datetime.timedelta(minutes=5)` (times in minutes).  The loop
runs exactly `max ⌈(endTime - startTime)/5⌉ 0` times, which is the bound
given to `timeArrayGo`. -/
def timeArray (startTime endTime : ℚ) : List ℚ :=
  timeArrayGo (⌈(endTime - startTime) / 5⌉).toNat endTime startTime

/-- `parAngleCurve(mmt, ra, dec)`: build the time grid from `mmt.sunset`
to `mmt.sunrise`, then append `mmtParAngle(mmt, ra, dec, time)` for each
grid time (the source reuses the variable name `airmass` for this list).
The final `ephem` state (mutated by each `mmtParAngle` call) is returned
as the third component. -/
noncomputable def parAngleCurve (P : Provider) (mmt : ephem) (ra dec : String) :
    List ℚ × List ℝ × ephem :=
  let startTime := mmt.sunset
  let endTime := mmt.sunrise
  let tA := timeArray startTime endTime
  let r := tA.foldl (fun acc time =>
    let pa := mmtParAngle P acc.2 ra dec (EDate.time time)
    (acc.1 ++ [pa.1], pa.2)) (([] : List ℝ), mmt)
  (tA, r.1, r.2)

/-- `airmassCurve(mmt, ra, dec)`: build the same time grid, then append
`alt2airmass(alt)` for `alt, az = mmtAltAz(mmt, ra, dec, time)` at each
grid time.  The final `ephem` state is returned as the third component. -/
noncomputable def airmassCurve (P : Provider) (mmt : ephem) (ra dec : String) :
    List ℚ × List ℝ × ephem :=
  let startTime := mmt.sunset
  let endTime := mmt.sunrise
  let tA := timeArray startTime endTime
  let r := tA.foldl (fun acc time =>
    let aa := mmtAltAz P acc.2 ra dec (EDate.time time)
    (acc.1 ++ [alt2airmass aa.1.1], aa.2)) (([] : List ℝ), mmt)
  (tA, r.1, r.2)

/-- The `ObjEphem` class of the original module. -/
structure ObjEphem where
  dateObs : String
  observable : List ℕ
  ra : String
  dec : String
  time : List ℚ
  airmass : List ℝ
  parAngle : List ℝ

/-- `ObjEphem.__init__(ra, dec, dateObs, mmtEphem)`: set the observer's
date to `mmtEphem.dateObs`, run `airmassCurve` then `parAngleCurve`
(threading the mutated `ephem` state), rebind `timeArray` to the second
grid, and build the observability list by indexing `timeArray[ii]` and
`airmass[ii]` for `ii in range(len(airmass))`.  Python list indexing
raises on an out-of-range index; it is modelled by `getD` with default
values, and the index-safety claim shows the defaults are never reached. -/
noncomputable def ObjEphemInit (P : Provider) (ra dec dateObs : String)
    (mmtEphem : ephem) : ObjEphem :=
  let mmtE : ephem := { mmtEphem with
    mmtObserver := { mmtEphem.mmtObserver with date := some (EDate.str mmtEphem.dateObs) } }
  let ac := airmassCurve P mmtE ra dec
  let airmass := ac.2.1
  let pc := parAngleCurve P ac.2.2 ra dec
  let tA := pc.1
  let parAngle := pc.2.1
  let observability := (List.range airmass.length).map (fun ii =>
    targetObservability (tA.getD ii 0) (airmass.getD ii 0))
  { dateObs := mmtEphem.dateObs
    observable := observability
    ra := ra
    dec := dec
    time := tA
    airmass := airmass
    parAngle := parAngle }

end Orig

/-- The observer state written by line 194 of `ObjEphem.__init__`
(`mmtEphem.mmtObserver.date = mmtEphem.dateObs`). -/
def objEphemState (mmtE : Orig.ephem) : Orig.ephem :=
  { mmtE with mmtObserver := { mmtE.mmtObserver with date := some (EDate.str mmtE.dateObs) } }

/-! ## Concrete instances used for witnesses and counterexamples -/

/-- A concrete provider satisfying the Ephemeris Provider contract of the
specification for the anchor instant `0` (times in minutes past the
anchor): the Sun sets through the standard horizon at 360, through the
deeper twilight horizon at 400, rises through the twilight horizon at 1100
and through the standard horizon at 1140; Moon events are at 700/720.  The
star-computation fields are irrelevant for rise/set claims and are set to
zero. -/
noncomputable def Pc : Provider :=
  { next_setting := fun o b =>
      match b with
      | Body.Sun => if o.horizon = "-12" then 400 else 360
      | Body.Moon => 720
    next_rising := fun o b =>
      match b with
      | Body.Sun => if o.horizon = "-12" then 1100 else 1140
      | Body.Moon => 700
    alt := fun _ _ _ => 0
    az := fun _ _ _ => 0
    parallactic_angle := fun _ _ _ => 0 }

/-- A concrete night used to instantiate grid claims: sunset at 0,
sunrise at 7 (minutes), so the grid is `[0, 5, 10]`. -/
def nightW : Orig.ephem :=
  { dateObs := "2016/02/09 19:00"
    sunset := 0
    sunrise := 7
    eveningTwilight := 1
    morningTwilight := 6
    moonrise := 2
    moonset := 3
    mmtObserver := Orig.mmtObserver }

/-! ## Closed form of the time grid -/

/-- With the exact iteration bound, the grid loop produces the arithmetic
progression `t, t + 5, ..., t + 5 n`. -/
lemma timeArrayGo_closed : ∀ (n : ℕ) (e t : ℚ), (⌈(e - t) / 5⌉).toNat = n →
    Orig.timeArrayGo n e t = (List.range (n + 1)).map (fun i : ℕ => t + 5 * (i : ℚ)) := by
  intro n
  induction n with
  | zero =>
    intro e t _
    simp [Orig.timeArrayGo, List.range_succ]
  | succ n ih =>
    intro e t h
    have hpos : 0 < ⌈(e - t) / 5⌉ := by
      by_contra hc
      push_neg at hc
      rw [Int.toNat_of_nonpos hc] at h
      exact Nat.succ_ne_zero n h.symm
    have hdiv : 0 < (e - t) / 5 := Int.ceil_pos.mp hpos
    have hlt : t < e := by linarith
    have hc : ⌈(e - t) / 5⌉ = (n : ℤ) + 1 := by omega
    have hnext : (⌈(e - (t + 5)) / 5⌉).toNat = n := by
      have he : (e - (t + 5)) / 5 = (e - t) / 5 - 1 := by ring
      rw [he, Int.ceil_sub_one, hc]
      simp
    have key : List.map (fun i : ℕ => t + 5 * (i : ℚ)) (List.range (n + 1 + 1)) =
        t :: List.map (fun i : ℕ => t + 5 + 5 * (i : ℚ)) (List.range (n + 1)) := by
      conv_lhs => rw [List.range_succ_eq_map]
      simp only [List.map_cons, List.map_map, Nat.cast_zero, mul_zero, add_zero]
      refine congrArg _ (List.map_congr_left ?_)
      intro i _
      simp only [Function.comp]
      push_cast
      ring
    rw [Orig.timeArrayGo, if_pos hlt, ih e (t + 5) hnext, key]

/-- The time grid is the arithmetic progression
`s, s + 5, ..., s + 5 ⌈(e - s)/5⌉⁺`. -/
lemma timeArray_closed (s e : ℚ) :
    Orig.timeArray s e =
      (List.range ((⌈(e - s) / 5⌉).toNat + 1)).map (fun i : ℕ => s + 5 * (i : ℚ)) :=
  timeArrayGo_closed _ e s rfl

/-- Length of the time grid. -/
lemma timeArray_length (s e : ℚ) :
    (Orig.timeArray s e).length = (⌈(e - s) / 5⌉).toNat + 1 := by
  rw [timeArray_closed]
  simp

/-- In-range elements of the time grid. -/
lemma timeArray_getD (s e : ℚ) (i : ℕ) (hi : i < (⌈(e - s) / 5⌉).toNat + 1) :
    (Orig.timeArray s e).getD i 0 = s + 5 * i := by
  rw [timeArray_closed, List.getD_eq_getElem?_getD, List.getElem?_map,
    List.getElem?_range hi]
  simp

/-- The grid starts at `startTime`. -/
lemma timeArray_head? (s e : ℚ) : (Orig.timeArray s e).head? = some s := by
  rw [timeArray_closed, List.range_succ_eq_map]
  simp

/-- The grid ends at `startTime + 5 ⌈(endTime - startTime)/5⌉⁺`. -/
lemma timeArray_getLast? (s e : ℚ) :
    (Orig.timeArray s e).getLast? = some (s + 5 * (⌈(e - s) / 5⌉).toNat) := by
  rw [timeArray_closed, List.range_succ, List.map_append]
  simp

/-- All elements except the last are strictly before `endTime`. -/
lemma timeArray_dropLast_lt (s e : ℚ) (x : ℚ)
    (hx : x ∈ (Orig.timeArray s e).dropLast) : x < e := by
  rw [timeArray_closed, List.range_succ, List.map_append] at hx
  simp only [List.map_cons, List.map_nil, List.dropLast_concat] at hx
  obtain ⟨i, hi, rfl⟩ := List.mem_map.mp hx
  have hin : i < (⌈(e - s) / 5⌉).toNat := List.mem_range.mp hi
  have hic : (i : ℤ) < ⌈(e - s) / 5⌉ := by omega
  have : (i : ℚ) < (e - s) / 5 := by exact_mod_cast Int.lt_ceil.mp hic
  linarith

/-- The last grid point is at or past `endTime`. -/
lemma timeArray_last_ge (s e : ℚ) : e ≤ s + 5 * (⌈(e - s) / 5⌉).toNat := by
  have h1 : ⌈(e - s) / 5⌉ ≤ ((⌈(e - s) / 5⌉).toNat : ℤ) := Int.self_le_toNat _
  have h2 : (e - s) / 5 ≤ ((⌈(e - s) / 5⌉).toNat : ℤ) := le_trans (Int.le_ceil _) (by exact_mod_cast h1)
  have h3 : (e - s) / 5 ≤ ((⌈(e - s) / 5⌉).toNat : ℚ) := by exact_mod_cast h2
  linarith

/-! ## Folds used by the curve generators -/

/-- A fold whose step appends exactly one value grows its value list by
the length of the input list. -/
lemma foldl_fst_length {σ : Type} (step : List ℝ × σ → ℚ → List ℝ × σ)
    (hstep : ∀ a t, (step a t).1.length = a.1.length + 1) (l : List ℚ) :
    ∀ acc : List ℝ × σ, (l.foldl step acc).1.length = acc.1.length + l.length := by
  induction l with
  | nil => intro acc; simp
  | cons x xs ih =>
    intro acc
    rw [List.foldl_cons, ih, hstep, List.length_cons]
    omega

/-- A fold whose step preserves an observation of the state preserves it
over the whole list. -/
lemma foldl_snd_image {σ β : Type} (f : σ → β) (step : List ℝ × σ → ℚ → List ℝ × σ)
    (hstep : ∀ a t, f (step a t).2 = f a.2) (l : List ℚ) :
    ∀ acc : List ℝ × σ, f (l.foldl step acc).2 = f acc.2 := by
  induction l with
  | nil => intro acc; rfl
  | cons x xs ih =>
    intro acc
    rw [List.foldl_cons, ih, hstep]

/-- The grid returned by `airmassCurve` is the one built from the `ephem`
object's sunset/sunrise bounds. -/
lemma airmassCurve_grid (P : Provider) (mmt : Orig.ephem) (ra dec : String) :
    (Orig.airmassCurve P mmt ra dec).1 = Orig.timeArray mmt.sunset mmt.sunrise := rfl

/-- The grid returned by `parAngleCurve` is the one built from the `ephem`
object's sunset/sunrise bounds. -/
lemma parAngleCurve_grid (P : Provider) (mmt : Orig.ephem) (ra dec : String) :
    (Orig.parAngleCurve P mmt ra dec).1 = Orig.timeArray mmt.sunset mmt.sunrise := rfl

/-- `airmassCurve` produces one airmass value per grid point. -/
lemma airmassCurve_len (P : Provider) (mmt : Orig.ephem) (ra dec : String) :
    (Orig.airmassCurve P mmt ra dec).2.1.length =
      (Orig.timeArray mmt.sunset mmt.sunrise).length := by
  simp only [Orig.airmassCurve]
  have h := foldl_fst_length (fun (acc : List ℝ × Orig.ephem) (time : ℚ) =>
      (acc.1 ++ [Orig.alt2airmass (Orig.mmtAltAz P acc.2 ra dec (EDate.time time)).1.1],
        (Orig.mmtAltAz P acc.2 ra dec (EDate.time time)).2))
    (fun a t => by simp) (Orig.timeArray mmt.sunset mmt.sunrise) ([], mmt)
  simpa using h

/-- `parAngleCurve` produces one value per grid point. -/
lemma parAngleCurve_len (P : Provider) (mmt : Orig.ephem) (ra dec : String) :
    (Orig.parAngleCurve P mmt ra dec).2.1.length =
      (Orig.timeArray mmt.sunset mmt.sunrise).length := by
  simp only [Orig.parAngleCurve]
  have h := foldl_fst_length (fun (acc : List ℝ × Orig.ephem) (time : ℚ) =>
      (acc.1 ++ [(Orig.mmtParAngle P acc.2 ra dec (EDate.time time)).1],
        (Orig.mmtParAngle P acc.2 ra dec (EDate.time time)).2))
    (fun a t => by simp) (Orig.timeArray mmt.sunset mmt.sunrise) ([], mmt)
  simpa using h

/-- The `ephem` state returned by `airmassCurve` keeps the sunset bound
(only the observer's date is mutated). -/
lemma airmassCurve_sunset (P : Provider) (mmt : Orig.ephem) (ra dec : String) :
    (Orig.airmassCurve P mmt ra dec).2.2.sunset = mmt.sunset := by
  simp only [Orig.airmassCurve]
  have h := foldl_snd_image Orig.ephem.sunset
    (fun (acc : List ℝ × Orig.ephem) (time : ℚ) =>
      (acc.1 ++ [Orig.alt2airmass (Orig.mmtAltAz P acc.2 ra dec (EDate.time time)).1.1],
        (Orig.mmtAltAz P acc.2 ra dec (EDate.time time)).2))
    (fun a t => rfl) (Orig.timeArray mmt.sunset mmt.sunrise) ([], mmt)
  simpa using h

/-- The `ephem` state returned by `airmassCurve` keeps the sunrise bound. -/
lemma airmassCurve_sunrise (P : Provider) (mmt : Orig.ephem) (ra dec : String) :
    (Orig.airmassCurve P mmt ra dec).2.2.sunrise = mmt.sunrise := by
  simp only [Orig.airmassCurve]
  have h := foldl_snd_image Orig.ephem.sunrise
    (fun (acc : List ℝ × Orig.ephem) (time : ℚ) =>
      (acc.1 ++ [Orig.alt2airmass (Orig.mmtAltAz P acc.2 ra dec (EDate.time time)).1.1],
        (Orig.mmtAltAz P acc.2 ra dec (EDate.time time)).2))
    (fun a t => rfl) (Orig.timeArray mmt.sunset mmt.sunrise) ([], mmt)
  simpa using h

/-- The `time` field of a constructed `ObjEphem` is the grid of the second
curve call. -/
lemma ObjEphemInit_time (P : Provider) (ra dec dateObs : String) (mmtE : Orig.ephem) :
    (Orig.ObjEphemInit P ra dec dateObs mmtE).time =
      (Orig.parAngleCurve P
        (Orig.airmassCurve P (objEphemState mmtE) ra dec).2.2 ra dec).1 := rfl

/-- The `airmass` field of a constructed `ObjEphem`. -/
lemma ObjEphemInit_airmass (P : Provider) (ra dec dateObs : String) (mmtE : Orig.ephem) :
    (Orig.ObjEphemInit P ra dec dateObs mmtE).airmass =
      (Orig.airmassCurve P (objEphemState mmtE) ra dec).2.1 := rfl

/-- The `parAngle` field of a constructed `ObjEphem`. -/
lemma ObjEphemInit_parAngle (P : Provider) (ra dec dateObs : String) (mmtE : Orig.ephem) :
    (Orig.ObjEphemInit P ra dec dateObs mmtE).parAngle =
      (Orig.parAngleCurve P
        (Orig.airmassCurve P (objEphemState mmtE) ra dec).2.2 ra dec).2.1 := rfl

/-- The `observable` field has one flag per airmass sample. -/
lemma ObjEphemInit_observable_length (P : Provider) (ra dec dateObs : String)
    (mmtE : Orig.ephem) :
    (Orig.ObjEphemInit P ra dec dateObs mmtE).observable.length =
      (Orig.ObjEphemInit P ra dec dateObs mmtE).airmass.length := by
  show ((List.range (Orig.airmassCurve P (objEphemState mmtE) ra dec).2.1.length).map _).length = _
  rw [List.length_map, List.length_range]
  rfl

/-! ## Claim theorems -/

/-- C10: for every constructed `ObjEphem`, the four sequences `time`,
`airmass`, `parAngle` and `observable` all have the same length (the
airmass and parallactic-angle curves rebuild identical time grids from the
same sunset/sunrise bounds), so the index loop over
`range(len(airmass))` reading `timeArray[ii]` and `airmass[ii]` stays in
bounds. -/
theorem claim_C10_objephem_lengths_align (P : Provider) (ra dec dateObs : String)
    (mmtE : Orig.ephem) :
    (Orig.ObjEphemInit P ra dec dateObs mmtE).time.length =
      (Orig.ObjEphemInit P ra dec dateObs mmtE).airmass.length ∧
    (Orig.ObjEphemInit P ra dec dateObs mmtE).airmass.length =
      (Orig.ObjEphemInit P ra dec dateObs mmtE).parAngle.length ∧
    (Orig.ObjEphemInit P ra dec dateObs mmtE).parAngle.length =
      (Orig.ObjEphemInit P ra dec dateObs mmtE).observable.length := by
  have hs : (Orig.airmassCurve P (objEphemState mmtE) ra dec).2.2.sunset =
      (objEphemState mmtE).sunset := airmassCurve_sunset _ _ _ _
  have hr : (Orig.airmassCurve P (objEphemState mmtE) ra dec).2.2.sunrise =
      (objEphemState mmtE).sunrise := airmassCurve_sunrise _ _ _ _
  have htime : (Orig.ObjEphemInit P ra dec dateObs mmtE).time =
      Orig.timeArray (objEphemState mmtE).sunset (objEphemState mmtE).sunrise := by
    rw [ObjEphemInit_time, parAngleCurve_grid, hs, hr]
  have hair : (Orig.ObjEphemInit P ra dec dateObs mmtE).airmass.length =
      (Orig.timeArray (objEphemState mmtE).sunset (objEphemState mmtE).sunrise).length := by
    rw [ObjEphemInit_airmass, airmassCurve_len]
  have hpar : (Orig.ObjEphemInit P ra dec dateObs mmtE).parAngle.length =
      (Orig.timeArray (objEphemState mmtE).sunset (objEphemState mmtE).sunrise).length := by
    rw [ObjEphemInit_parAngle, parAngleCurve_len, hs, hr]
  refine ⟨?_, ?_, ?_⟩
  · rw [htime, hair]
  · rw [hair, hpar]
  · rw [hpar, ObjEphemInit_observable_length, hair]

/-- C5: `targetObservability` returns 1 exactly when `1 < airmass < 1.8`
(both boundaries excluded), returns 0 otherwise, and ignores its time
argument. -/
theorem claim_C5_observability_window (t u : ℚ) (a : ℝ) :
    (Orig.targetObservability t a = 1 ↔ 1 < a ∧ a < 1.8) ∧
    (Orig.targetObservability t a = 0 ↔ ¬(1 < a ∧ a < 1.8)) ∧
    Orig.targetObservability t a = Orig.targetObservability u a ∧
    Orig.targetObservability t 1 = 0 ∧
    Orig.targetObservability t 1.8 = 0 := by
  have hval : ∀ (v : ℚ) (b : ℝ),
      Orig.targetObservability v b = if 1 < b ∧ b < 1.8 then 1 else 0 := by
    intro v b
    simp only [Orig.targetObservability]
    norm_num
  refine ⟨?_, ?_, ?_, ?_, ?_⟩
  · rw [hval]
    split_ifs with h
    · simpa using h
    · simpa using h
  · rw [hval]
    split_ifs with h
    · simpa using h
    · simpa using h
  · rw [hval, hval]
  · rw [hval]
    norm_num
  · rw [hval]
    norm_num

/-- C7: the transform exposes altitude and azimuth in degrees (the
provider's raw radian values multiplied by `180/π`), while the parallactic
angle is returned in the provider's native units with no conversion. -/
theorem claim_C7_angle_units (P : Provider) (mmt : Orig.ephem) (ra dec : String)
    (dt : EDate) :
    (Orig.mmtAltAz P mmt ra dec dt).1.1 =
      P.alt { mmt.mmtObserver with date := some dt } ra dec * (180 / Real.pi) ∧
    (Orig.mmtAltAz P mmt ra dec dt).1.2 =
      P.az { mmt.mmtObserver with date := some dt } ra dec * (180 / Real.pi) ∧
    (Orig.mmtParAngle P mmt ra dec dt).1 =
      P.parallactic_angle { mmt.mmtObserver with date := some dt } ra dec := by
  refine ⟨?_, ?_, rfl⟩
  · show P.alt _ ra dec * 180.0 / Real.pi = _
    rw [mul_div_assoc]
    norm_num
  · show P.az _ ra dec * 180 / Real.pi = _
    rw [mul_div_assoc]

/-- C9: `mmtAltAz` and `mmtParAngle` mutate only the shared observer's
`date` field; the observer's latitude, longitude, elevation, pressure and
horizon are unchanged by every call to either function. -/
theorem claim_C9_only_date_mutated (P : Provider) (mmt : Orig.ephem) (ra dec : String)
    (dt : EDate) :
    (Orig.mmtAltAz P mmt ra dec dt).2 =
      { mmt with mmtObserver := { mmt.mmtObserver with date := some dt } } ∧
    (Orig.mmtParAngle P mmt ra dec dt).2 =
      { mmt with mmtObserver := { mmt.mmtObserver with date := some dt } } ∧
    (Orig.mmtAltAz P mmt ra dec dt).2.mmtObserver.lat = mmt.mmtObserver.lat ∧
    (Orig.mmtAltAz P mmt ra dec dt).2.mmtObserver.lon = mmt.mmtObserver.lon ∧
    (Orig.mmtAltAz P mmt ra dec dt).2.mmtObserver.elevation = mmt.mmtObserver.elevation ∧
    (Orig.mmtAltAz P mmt ra dec dt).2.mmtObserver.pressure = mmt.mmtObserver.pressure ∧
    (Orig.mmtAltAz P mmt ra dec dt).2.mmtObserver.horizon = mmt.mmtObserver.horizon ∧
    (Orig.mmtAltAz P mmt ra dec dt).2.mmtObserver.date = some dt ∧
    (Orig.mmtParAngle P mmt ra dec dt).2.mmtObserver.lat = mmt.mmtObserver.lat ∧
    (Orig.mmtParAngle P mmt ra dec dt).2.mmtObserver.lon = mmt.mmtObserver.lon ∧
    (Orig.mmtParAngle P mmt ra dec dt).2.mmtObserver.elevation = mmt.mmtObserver.elevation ∧
    (Orig.mmtParAngle P mmt ra dec dt).2.mmtObserver.pressure = mmt.mmtObserver.pressure ∧
    (Orig.mmtParAngle P mmt ra dec dt).2.mmtObserver.horizon = mmt.mmtObserver.horizon ∧
    (Orig.mmtParAngle P mmt ra dec dt).2.mmtObserver.date = some dt :=
  ⟨rfl, rfl, rfl, rfl, rfl, rfl, rfl, rfl, rfl, rfl, rfl, rfl, rfl, rfl⟩

/-- C1: which horizon is in effect for the Moon queries.  In the original
module's constructor the horizon is switched back to `"-0:34"` before the
moon queries (the claim, and the spec, say so), but in the top-level
module `src/MMTEphem.py` the moon queries are issued with the observer
still configured with the nautical-twilight horizon `"-12"` — settling the
claim as a bug of the top-level module. -/
theorem claim_C1_moon_horizon (P : Provider) (d : String) :
    ((Orig.ephemInit P d).moonrise = P.next_rising (Orig.obsStd d) Body.Moon ∧
     (Orig.ephemInit P d).moonset = P.next_setting (Orig.obsStd d) Body.Moon ∧
     (Orig.obsStd d).horizon = "-0:34") ∧
    ((MMTEphemInit P d).moonrise =
        P.next_rising { mmtObserver d with horizon := mmtTwilightDefinition } Body.Moon ∧
     (MMTEphemInit P d).moonset =
        P.next_setting { mmtObserver d with horizon := mmtTwilightDefinition } Body.Moon ∧
     ({ mmtObserver d with horizon := mmtTwilightDefinition } : Observer).horizon = "-12" ∧
     ("-0:34" : String) ≠ "-12") :=
  ⟨⟨rfl, rfl, rfl⟩, ⟨rfl, rfl, rfl, by decide⟩⟩

/-- C2: the shared reference instant.  In the original module every one of
the six queries is issued against an observer whose `date` is the
`dateObs.split()[0] + " 19:00"` anchor, installed before any query and
never advanced.  In the top-level module `src/MMTEphem.py` the observer's
`date` is never assigned at all (`mmtObserver(dateObs)` ignores its
argument), so no query uses the `date + " 19:00"` anchor — settling the
claim as a bug of the top-level module. -/
theorem claim_C2_shared_anchor (P : Provider) (d : String) :
    ((Orig.ephemInit P d).sunset = P.next_setting (Orig.obsStd d) Body.Sun ∧
     (Orig.ephemInit P d).sunrise = P.next_rising (Orig.obsStd d) Body.Sun ∧
     (Orig.ephemInit P d).eveningTwilight = P.next_setting (Orig.obsTwi d) Body.Sun ∧
     (Orig.ephemInit P d).morningTwilight = P.next_rising (Orig.obsTwi d) Body.Sun ∧
     (Orig.ephemInit P d).moonrise = P.next_rising (Orig.obsStd d) Body.Moon ∧
     (Orig.ephemInit P d).moonset = P.next_setting (Orig.obsStd d) Body.Moon ∧
     (Orig.obsStd d).date = some (EDate.str (Orig.anchor d)) ∧
     (Orig.obsTwi d).date = some (EDate.str (Orig.anchor d)) ∧
     Orig.anchor d = (d.splitOn " ").headD d ++ " 19:00") ∧
    ((MMTEphemInit P d).sunset =
        P.next_setting { mmtObserver d with horizon := "-0:34" } Body.Sun ∧
     (MMTEphemInit P d).sunrise =
        P.next_rising { mmtObserver d with horizon := "-0:34" } Body.Sun ∧
     ({ mmtObserver d with horizon := "-0:34" } : Observer).date = none ∧
     (MMTEphemInit P d).mmtObserver.date = none) :=
  ⟨⟨rfl, rfl, rfl, rfl, rfl, rfl, rfl, rfl, rfl⟩, ⟨rfl, rfl, rfl, rfl⟩⟩

/-- C8: the grid loop terminates for every pair of bounds (its length is a
total function of the bounds), it satisfies the while-loop unfolding
equation with the strictly positive 5-minute step, and when
`sunset ≥ sunrise` the loop body never runs: the grid is the single sample
`[sunset]`, so the curve is never empty. -/
theorem claim_C8_grid_loop_total (s e : ℚ) :
    (Orig.timeArray s e).length = (⌈(e - s) / 5⌉).toNat + 1 ∧
    Orig.timeArray s e ≠ [] ∧
    Orig.timeArray s e = (if s < e then s :: Orig.timeArray (s + 5) e else [s]) ∧
    (e ≤ s → Orig.timeArray s e = [s]) := by
  have hzero : ¬s < e → Orig.timeArray s e = [s] := by
    intro h
    have hle : (e - s) / 5 ≤ 0 := by
      push_neg at h
      have : e - s ≤ 0 := by linarith
      linarith
    have h0 : (⌈(e - s) / 5⌉).toNat = 0 := by
      have hc : ⌈(e - s) / 5⌉ ≤ (0 : ℤ) := Int.ceil_le.mpr (by exact_mod_cast hle)
      omega
    show Orig.timeArrayGo _ e s = [s]
    rw [h0]
    rfl
  refine ⟨timeArray_length s e, ?_, ?_, fun h => hzero (by linarith)⟩
  · rw [timeArray_closed]
    simp
  · by_cases hlt : s < e
    · rw [if_pos hlt]
      have hpos : 0 < ⌈(e - s) / 5⌉ :=
        Int.ceil_pos.mpr (div_pos (by linarith) (by norm_num))
      obtain ⟨n, hn⟩ : ∃ n, (⌈(e - s) / 5⌉).toNat = n + 1 := ⟨(⌈(e - s) / 5⌉).toNat - 1, by omega⟩
      have hnext : (⌈(e - (s + 5)) / 5⌉).toNat = n := by
        have he : (e - (s + 5)) / 5 = (e - s) / 5 - 1 := by ring
        rw [he, Int.ceil_sub_one]
        omega
      show Orig.timeArrayGo _ e s = _
      rw [hn, Orig.timeArrayGo, if_pos hlt]
      have : Orig.timeArrayGo n e (s + 5) = Orig.timeArray (s + 5) e := by
        show _ = Orig.timeArrayGo _ e (s + 5)
        rw [hnext]
      rw [this]
    · rw [if_neg hlt, hzero hlt]

/-- C8 witness: at `sunset = 10 ≥ 3 = sunrise` the grid is the single
sample `[10]`. -/
theorem claim_C8_grid_loop_total_witness :
    (3 : ℚ) ≤ 10 ∧ Orig.timeArray 10 3 = [10] :=
  ⟨by norm_num, (claim_C8_grid_loop_total 10 3).2.2.2 (by norm_num)⟩

/-- C4: for a night with `sunset < sunrise`, the grid built by the curve
generator starts exactly at `night.sunset`, steps by exactly 5 minutes, is
strictly ascending, has length `⌈(sunrise - sunset)/5⌉ + 1`, and its last
element is the first grid point `≥ night.sunrise` (kept, not clamped):
every earlier element is `< sunrise` and the last is `≥ sunrise`. -/
theorem claim_C4_grid_structure (P : Provider) (night : Orig.ephem) (ra dec : String)
    (h : night.sunset < night.sunrise) :
    (Orig.airmassCurve P night ra dec).1.head? = some night.sunset ∧
    (∀ i : ℕ, i + 1 < (Orig.airmassCurve P night ra dec).1.length →
      (Orig.airmassCurve P night ra dec).1.getD (i + 1) 0 =
        (Orig.airmassCurve P night ra dec).1.getD i 0 + 5) ∧
    (∀ i j : ℕ, i < j → j < (Orig.airmassCurve P night ra dec).1.length →
      (Orig.airmassCurve P night ra dec).1.getD i 0 <
        (Orig.airmassCurve P night ra dec).1.getD j 0) ∧
    ((Orig.airmassCurve P night ra dec).1.length : ℤ) =
      ⌈(night.sunrise - night.sunset) / 5⌉ + 1 ∧
    (Orig.airmassCurve P night ra dec).1.getLast? =
      some (night.sunset + 5 * (⌈(night.sunrise - night.sunset) / 5⌉).toNat) ∧
    night.sunrise ≤
      night.sunset + 5 * (⌈(night.sunrise - night.sunset) / 5⌉).toNat ∧
    (∀ x ∈ (Orig.airmassCurve P night ra dec).1.dropLast, x < night.sunrise) := by
  have hgrid := airmassCurve_grid P night ra dec
  have hpos : 0 < ⌈(night.sunrise - night.sunset) / 5⌉ :=
    Int.ceil_pos.mpr (div_pos (by linarith) (by norm_num))
  have hlen := timeArray_length night.sunset night.sunrise
  refine ⟨?_, ?_, ?_, ?_, ?_, timeArray_last_ge _ _, ?_⟩
  · rw [hgrid]
    exact timeArray_head? _ _
  · intro i hi
    rw [hgrid] at hi ⊢
    rw [hlen] at hi
    rw [timeArray_getD _ _ _ (by omega), timeArray_getD _ _ _ (by omega)]
    push_cast
    ring
  · intro i j hij hj
    rw [hgrid] at hj ⊢
    rw [hlen] at hj
    rw [timeArray_getD _ _ _ (by omega), timeArray_getD _ _ _ (by omega)]
    have : (i : ℚ) < (j : ℚ) := by exact_mod_cast hij
    nlinarith
  · rw [hgrid, hlen]
    push_cast
    omega
  · rw [hgrid]
    exact timeArray_getLast? _ _
  · intro x hx
    rw [hgrid] at hx
    exact timeArray_dropLast_lt _ _ x hx

/-- C4 witness: for the concrete night with sunset 0 and sunrise 7, the
grid is `[0, 5, 10]`: it starts at sunset, steps by 5, and its last
element is the first one `≥ 7`. -/
theorem claim_C4_grid_structure_witness :
    nightW.sunset < nightW.sunrise ∧
    (Orig.airmassCurve Pc nightW "8:00:00" "30:00:00").1.head? = some nightW.sunset ∧
    (Orig.airmassCurve Pc nightW "8:00:00" "30:00:00").1.getD 1 0 =
      (Orig.airmassCurve Pc nightW "8:00:00" "30:00:00").1.getD 0 0 + 5 ∧
    ((Orig.airmassCurve Pc nightW "8:00:00" "30:00:00").1.length : ℤ) =
      ⌈(nightW.sunrise - nightW.sunset) / 5⌉ + 1 :=
  ⟨by norm_num [nightW],
   (claim_C4_grid_structure Pc nightW "8:00:00" "30:00:00" (by norm_num [nightW])).1,
   (claim_C4_grid_structure Pc nightW "8:00:00" "30:00:00" (by norm_num [nightW])).2.1 0
     (by
       rw [airmassCurve_grid, timeArray_length]
       have hc : ⌈(nightW.sunrise - nightW.sunset) / 5⌉ = 2 := by
         norm_num [nightW, Int.ceil_eq_iff]
       rw [hc]
       norm_num),
   (claim_C4_grid_structure Pc nightW "8:00:00" "30:00:00" (by norm_num [nightW])).2.2.2.1⟩

/-- C3 (amended): under the Ephemeris Provider contract — the next setting
follows the anchor, the Sun is up at the anchor so its next standard
setting precedes its next standard rising, the next standard rising falls
within 24 h (1440 min) of the anchor, and a deeper horizon is crossed
later in the evening and earlier in the morning — the six instants of the
original constructor satisfy `sunset < sunrise < sunset + 24h`, with
`sunset < eveningTwilight` and `morningTwilight < sunrise` (the claim's
reversed twilight inequalities are refuted by the counterexample). -/
theorem claim_C3_night_ordering (P : Provider) (d : String) (anchorT : ℚ)
    (h1 : anchorT < P.next_setting (Orig.obsStd d) Body.Sun)
    (h2 : P.next_setting (Orig.obsStd d) Body.Sun < P.next_rising (Orig.obsStd d) Body.Sun)
    (h3 : P.next_rising (Orig.obsStd d) Body.Sun ≤ anchorT + 1440)
    (h4 : P.next_setting (Orig.obsStd d) Body.Sun < P.next_setting (Orig.obsTwi d) Body.Sun)
    (h5 : P.next_rising (Orig.obsTwi d) Body.Sun < P.next_rising (Orig.obsStd d) Body.Sun) :
    (Orig.ephemInit P d).sunset < (Orig.ephemInit P d).sunrise ∧
    (Orig.ephemInit P d).sunrise < (Orig.ephemInit P d).sunset + 1440 ∧
    (Orig.ephemInit P d).sunset < (Orig.ephemInit P d).eveningTwilight ∧
    (Orig.ephemInit P d).morningTwilight < (Orig.ephemInit P d).sunrise := by
  have e1 : (Orig.ephemInit P d).sunset = P.next_setting (Orig.obsStd d) Body.Sun := rfl
  have e2 : (Orig.ephemInit P d).sunrise = P.next_rising (Orig.obsStd d) Body.Sun := rfl
  have e3 : (Orig.ephemInit P d).eveningTwilight =
      P.next_setting (Orig.obsTwi d) Body.Sun := rfl
  have e4 : (Orig.ephemInit P d).morningTwilight =
      P.next_rising (Orig.obsTwi d) Body.Sun := rfl
  rw [e1, e2, e3, e4]
  exact ⟨h2, by linarith, h4, h5⟩

/-- C3 counterexample: the concrete provider `Pc` satisfies every clause
of the Ephemeris Provider contract for the anchor instant 0, yet the
constructed night has `eveningTwilight > sunset` and
`morningTwilight < sunrise` — the claim's inequalities
`eveningTwilight < sunset` and `morningTwilight > sunrise` fail. -/
theorem claim_C3_night_ordering_counterexample :
    ((0 : ℚ) < Pc.next_setting (Orig.obsStd "2016/02/09") Body.Sun ∧
     Pc.next_setting (Orig.obsStd "2016/02/09") Body.Sun <
       Pc.next_rising (Orig.obsStd "2016/02/09") Body.Sun ∧
     Pc.next_rising (Orig.obsStd "2016/02/09") Body.Sun ≤ 0 + 1440 ∧
     Pc.next_setting (Orig.obsStd "2016/02/09") Body.Sun <
       Pc.next_setting (Orig.obsTwi "2016/02/09") Body.Sun ∧
     Pc.next_rising (Orig.obsTwi "2016/02/09") Body.Sun <
       Pc.next_rising (Orig.obsStd "2016/02/09") Body.Sun) ∧
    ¬((Orig.ephemInit Pc "2016/02/09").eveningTwilight <
        (Orig.ephemInit Pc "2016/02/09").sunset) ∧
    ¬((Orig.ephemInit Pc "2016/02/09").morningTwilight >
        (Orig.ephemInit Pc "2016/02/09").sunrise) := by
  refine ⟨⟨by decide, by decide, ?_, by decide, by decide⟩, by decide, by decide⟩
  show (1140 : ℚ) ≤ 0 + 1440
  norm_num

/-- C3 witness: the amended ordering instantiated at the concrete provider
`Pc` and anchor 0. -/
theorem claim_C3_night_ordering_witness :
    ((0 : ℚ) < Pc.next_setting (Orig.obsStd "2016/02/09") Body.Sun) ∧
    (Orig.ephemInit Pc "2016/02/09").sunset < (Orig.ephemInit Pc "2016/02/09").sunrise ∧
    (Orig.ephemInit Pc "2016/02/09").sunrise <
      (Orig.ephemInit Pc "2016/02/09").sunset + 1440 ∧
    (Orig.ephemInit Pc "2016/02/09").sunset <
      (Orig.ephemInit Pc "2016/02/09").eveningTwilight ∧
    (Orig.ephemInit Pc "2016/02/09").morningTwilight <
      (Orig.ephemInit Pc "2016/02/09").sunrise :=
  ⟨by decide,
   claim_C3_night_ordering Pc "2016/02/09" 0 (by decide) (by decide)
     (by show (1140 : ℚ) ≤ 0 + 1440; norm_num) (by decide) (by decide)⟩

/-- C6: `alt2airmass` computes exactly `1 / cos((90 − altitude)·π/180)`;
at 90° it returns exactly 1; the formula has a pole at altitude 0° (the
cosine vanishes, so the value diverges to `+∞` as the altitude approaches
0° from above, the float code returning a huge number there), and for
altitudes in `[-90°, 0°)` the value is negative — never clamped and never
an error. -/
theorem claim_C6_alt2airmass_formula :
    (∀ alt : ℝ, Orig.alt2airmass alt = 1 / Real.cos ((90 - alt) / 180 * Real.pi)) ∧
    Orig.alt2airmass 90 = 1 ∧
    Real.cos ((90 - (0 : ℝ)) / 180 * Real.pi) = 0 ∧
    (∀ alt : ℝ, -90 ≤ alt → alt < 0 → Orig.alt2airmass alt < 0) ∧
    Filter.Tendsto Orig.alt2airmass (nhdsWithin 0 (Set.Ioi 0)) Filter.atTop := by
  have hdef : ∀ alt : ℝ,
      Orig.alt2airmass alt = 1 / Real.cos ((90 - alt) / 180 * Real.pi) := by
    intro alt
    norm_num [Orig.alt2airmass]
  have hzero : Real.cos ((90 - (0 : ℝ)) / 180 * Real.pi) = 0 := by
    have h : ((90 : ℝ) - 0) / 180 * Real.pi = Real.pi / 2 := by
      norm_num
      ring
    rw [h, Real.cos_pi_div_two]
  refine ⟨hdef, ?_, hzero, ?_, ?_⟩
  · rw [hdef]
    norm_num
  · intro alt h1 h2
    rw [hdef]
    have hc1 : (1 : ℝ) / 2 < (90 - alt) / 180 := by linarith
    have hc2 : (90 - alt) / 180 ≤ 1 := by linarith
    have ht1 : Real.pi / 2 < (90 - alt) / 180 * Real.pi := by
      have := mul_lt_mul_of_pos_right hc1 Real.pi_pos
      linarith
    have ht2 : (90 - alt) / 180 * Real.pi < Real.pi + Real.pi / 2 := by
      have := mul_le_mul_of_nonneg_right hc2 (le_of_lt Real.pi_pos)
      linarith [Real.pi_pos]
    exact one_div_neg.mpr (Real.cos_neg_of_pi_div_two_lt_of_lt ht1 ht2)
  · have hcont : Continuous (fun a : ℝ => Real.cos ((90 - a) / 180 * Real.pi)) :=
      Real.continuous_cos.comp (((continuous_const.sub continuous_id).div_const 180).mul
        continuous_const)
    have h0 : Filter.Tendsto (fun a : ℝ => Real.cos ((90 - a) / 180 * Real.pi))
        (nhdsWithin 0 (Set.Ioi 0)) (nhds 0) := by
      have h : Filter.Tendsto (fun a : ℝ => Real.cos ((90 - a) / 180 * Real.pi))
          (nhdsWithin 0 (Set.Ioi 0))
          (nhds (Real.cos ((90 - (0 : ℝ)) / 180 * Real.pi))) :=
        (hcont.tendsto 0).mono_left nhdsWithin_le_nhds
      rw [hzero] at h
      exact h
    have hmem : ∀ᶠ a in nhdsWithin (0 : ℝ) (Set.Ioi 0),
        Real.cos ((90 - a) / 180 * Real.pi) ∈ Set.Ioi (0 : ℝ) := by
      have hIoo : Set.Ioo (0 : ℝ) 90 ∈ nhdsWithin (0 : ℝ) (Set.Ioi 0) :=
        Ioo_mem_nhdsWithin_Ioi ⟨le_refl 0, by norm_num⟩
      filter_upwards [hIoo] with a ha
      have hpos' : 0 < (90 - a) / 180 * Real.pi :=
        mul_pos (div_pos (by linarith [ha.2]) (by norm_num)) Real.pi_pos
      have hlt' : (90 - a) / 180 * Real.pi < Real.pi / 2 := by
        have hc : (90 - a) / 180 < 1 / 2 := by linarith [ha.1]
        have := mul_lt_mul_of_pos_right hc Real.pi_pos
        linarith
      exact Real.cos_pos_of_mem_Ioo ⟨by linarith [Real.pi_pos], hlt'⟩
    have hto : Filter.Tendsto (fun a : ℝ => Real.cos ((90 - a) / 180 * Real.pi))
        (nhdsWithin 0 (Set.Ioi 0)) (nhdsWithin 0 (Set.Ioi 0)) := by
      rw [tendsto_nhdsWithin_iff]
      exact ⟨h0, hmem⟩
    refine hto.inv_tendsto_zero.congr ?_
    intro a
    rw [hdef a, one_div]
    rfl

/-- C6 witness: at altitude −30° the airmass is negative (the zenith angle
is 120°, whose cosine is −1/2). -/
theorem claim_C6_alt2airmass_formula_witness :
    ((-90 : ℝ) ≤ -30 ∧ (-30 : ℝ) < 0) ∧ Orig.alt2airmass (-30) < 0 :=
  ⟨⟨by norm_num, by norm_num⟩,
   claim_C6_alt2airmass_formula.2.2.2.1 (-30) (by norm_num) (by norm_num)⟩

/-- C1 witness: the horizon facts instantiated at the concrete provider
and date. -/
theorem claim_C1_moon_horizon_witness :
    (Orig.ephemInit Pc "2016/02/09").moonrise =
      Pc.next_rising (Orig.obsStd "2016/02/09") Body.Moon ∧
    ({ mmtObserver "2016/02/09" with horizon := mmtTwilightDefinition } : Observer).horizon =
      "-12" :=
  ⟨(claim_C1_moon_horizon Pc "2016/02/09").1.1,
   (claim_C1_moon_horizon Pc "2016/02/09").2.2.2.1⟩

/-- C2 witness: the anchor facts instantiated at the concrete provider and
date. -/
theorem claim_C2_shared_anchor_witness :
    (Orig.ephemInit Pc "2016/02/09").sunset =
      Pc.next_setting (Orig.obsStd "2016/02/09") Body.Sun ∧
    (MMTEphemInit Pc "2016/02/09").mmtObserver.date = none :=
  ⟨(claim_C2_shared_anchor Pc "2016/02/09").1.1,
   (claim_C2_shared_anchor Pc "2016/02/09").2.2.2.2⟩

/-- C5 witness: airmass 1.5 is observable, the 1.8 boundary is not. -/
theorem claim_C5_observability_window_witness :
    Orig.targetObservability 0 (3 / 2 : ℝ) = 1 ∧
    Orig.targetObservability 0 (1.8 : ℝ) = 0 :=
  ⟨(claim_C5_observability_window 0 0 (3 / 2)).1.mpr (by norm_num),
   (claim_C5_observability_window 0 0 (1.8)).2.2.2.2⟩

/-- C7 witness: the parallactic angle of the concrete call is the raw
provider value. -/
theorem claim_C7_angle_units_witness :
    (Orig.mmtParAngle Pc nightW "8:00:00" "30:00:00" (EDate.time 0)).1 =
      Pc.parallactic_angle { nightW.mmtObserver with date := some (EDate.time 0) }
        "8:00:00" "30:00:00" :=
  (claim_C7_angle_units Pc nightW "8:00:00" "30:00:00" (EDate.time 0)).2.2

/-- C9 witness: a concrete call leaves the horizon unchanged. -/
theorem claim_C9_only_date_mutated_witness :
    (Orig.mmtAltAz Pc nightW "8:00:00" "30:00:00" (EDate.time 5)).2.mmtObserver.horizon =
      nightW.mmtObserver.horizon :=
  (claim_C9_only_date_mutated Pc nightW "8:00:00" "30:00:00" (EDate.time 5)).2.2.2.2.2.2.1

/-- C10 witness: the concrete object's time and airmass sequences have
equal length. -/
theorem claim_C10_objephem_lengths_align_witness :
    (Orig.ObjEphemInit Pc "8:00:00" "30:00:00" "2016/02/09" nightW).time.length =
      (Orig.ObjEphemInit Pc "8:00:00" "30:00:00" "2016/02/09" nightW).airmass.length :=
  (claim_C10_objephem_lengths_align Pc "8:00:00" "30:00:00" "2016/02/09" nightW).1
